import Mathlib

/-!
Verification of the `mapnik-print` repository (files `lib/renderer.hpp` and
`src/mapnik_print.cpp`) against its natural-language specification.

The C++ code is shallowly embedded: C++ `double` values are modelled as real
numbers, the 32-bit unsigned shift in `scale_merc` is modelled with an explicit
`% 2 ^ 32`, fallible file output is modelled with `Except`, and the observable
behaviour of `main` (which calls into the external mapnik library) is modelled
as a value listing the side effects the executed statements perform.  Constants
and operations of the external mapnik library that the repository calls
(`box2d`, `scale_denominator`, `EARTH_CIRCUMFERENCE`, `D2R`) are modelled from
the mapnik library's documented semantics; their doc comments say so.
-/

namespace mapnik_print

/-- Models the external mapnik constant `EARTH_RADIUS = 6378137.0`
(WGS84 equatorial radius in meters). -/
def EARTH_RADIUS : ℝ := 6378137

/-- Models the external mapnik constant
`EARTH_CIRCUMFERENCE = EARTH_RADIUS * 2 * M_PI`. -/
noncomputable def EARTH_CIRCUMFERENCE : ℝ := EARTH_RADIUS * 2 * Real.pi

/-- Models the external mapnik constant `D2R = M_PI / 180` (degrees to
radians). -/
noncomputable def D2R : ℝ := Real.pi / 180

/-- Models the external mapnik function `scale_denominator(map_scale,
geographic)`: the scale divided by the standardized pixel size `0.00028` m,
multiplied by meters-per-degree when the projection is geographic. -/
noncomputable def scale_denominator (map_scale : ℝ) (geographic : Bool) : ℝ :=
  let denom := map_scale / 0.00028
  if geographic then denom * (EARTH_CIRCUMFERENCE / 360) else denom

/-- Embeds `mapnik_print::meters_to_inches(double)` from `lib/renderer.hpp`:
`meters / 0.0254`. -/
noncomputable def meters_to_inches (meters : ℝ) : ℝ :=
  meters / 0.0254

/-- Embeds `struct map_size` from `lib/renderer.hpp`: a width and a height,
both `double`. -/
@[ext]
structure map_size where
  width : ℝ
  height : ℝ

/-- Embeds `map_size::meters_to_inches()` from `lib/renderer.hpp`: applies the
free function `mapnik_print::meters_to_inches` to both components. -/
noncomputable def map_size.meters_to_inches (s : map_size) : map_size :=
  { width := mapnik_print.meters_to_inches s.width,
    height := mapnik_print.meters_to_inches s.height }

/-- Embeds `map_size::operator *(double factor)` from `lib/renderer.hpp`:
componentwise scaling. -/
noncomputable def map_size.mul (s : map_size) (factor : ℝ) : map_size :=
  { width := s.width * factor, height := s.height * factor }

/-- Models the external type `mapnik::geometry::point<double>` (the repo's
`command::point_type`): a pair of coordinates. -/
structure point where
  x : ℝ
  y : ℝ

/-- Models the external type `mapnik::box2d<double>`: an axis-aligned box kept
as its four bounds. -/
@[ext]
structure box2d where
  minx : ℝ
  miny : ℝ
  maxx : ℝ
  maxy : ℝ

/-- Models the mapnik `box2d(minx, miny, maxx, maxy)` constructor, whose
`init` stores each coordinate pair in sorted order. -/
noncomputable def box2d.mk4 (x0 y0 x1 y1 : ℝ) : box2d :=
  { minx := min x0 x1, miny := min y0 y1, maxx := max x0 x1, maxy := max y0 y1 }

/-- Models mapnik `box2d::width()`: `maxx - minx`. -/
noncomputable def box2d.width (b : box2d) : ℝ :=
  b.maxx - b.minx

/-- Models mapnik `box2d::height()`: `maxy - miny`. -/
noncomputable def box2d.height (b : box2d) : ℝ :=
  b.maxy - b.miny

/-- Models mapnik `box2d::center()`: the midpoint of the bounds. -/
noncomputable def box2d.center (b : box2d) : point :=
  { x := (b.minx + b.maxx) / 2, y := (b.miny + b.maxy) / 2 }

/-- Models mapnik `box2d::operator*=(double)`: scales the box about its own
center, each half-extent being multiplied by the factor. -/
noncomputable def box2d.scale_about_center (b : box2d) (t : ℝ) : box2d :=
  let c := b.center
  let sx := 0.5 * b.width * t
  let sy := 0.5 * b.height * t
  { minx := c.x - sx, miny := c.y - sy, maxx := c.x + sx, maxy := c.y + sy }

/-- Models mapnik `box2d::re_center(cx, cy)`: translates the box so that its
center becomes `(cx, cy)`. -/
noncomputable def box2d.re_center (b : box2d) (cx cy : ℝ) : box2d :=
  let c := b.center
  { minx := b.minx + (cx - c.x), miny := b.miny + (cy - c.y),
    maxx := b.maxx + (cx - c.x), maxy := b.maxy + (cy - c.y) }

/-- Embeds the divisor `1u << zoom` of `scale_merc` in `lib/renderer.hpp`:
a 32-bit unsigned shift, modelled as the value modulo `2 ^ 32`. -/
def shl32 (zoom : Nat) : Nat :=
  (1 <<< zoom) % 2 ^ 32

/-- Embeds `mapnik_print::scale_merc(unsigned zoom)` from `lib/renderer.hpp`:
`(mapnik::EARTH_CIRCUMFERENCE / (1u << zoom)) / 256.0`. -/
noncomputable def scale_merc (zoom : Nat) : ℝ :=
  (EARTH_CIRCUMFERENCE / (shl32 zoom : ℝ)) / 256

/-- Embeds `command::points_per_inch` from `lib/renderer.hpp`. -/
def points_per_inch : ℝ := 72

/-- Embeds `struct command` from `lib/renderer.hpp`: the per-render request
holding the print size (in points), the map extent, the scale factor and the
dpi. -/
structure command where
  size : map_size
  extent : box2d
  scale_factor : ℝ
  dpi : ℝ

/-- Embeds the `command` constructor from `lib/renderer.hpp`.  The constructor
initializes `extent` to `(0, 0, size.width, size.height)` and `size` to
`size.meters_to_inches() * points_per_inch`, then scales the extent by
`scale_denom * cos(geografic_center.y * D2R)`, re-centers it at the map
center, and sets `scale_factor` to the ratio of mapnik scale denominators of
`scale_merc(zoom)` and of `extent.width() / size.width` (the parameter `size`,
in meters).  The source obtains `geografic_center` from
`mapnik::projection(srs).inverse` where `srs` is undefined in the repository
(the file does not compile there); that external projection result is
therefore taken as the parameter `geografic_center`. -/
noncomputable def command.make (map_center : point) (scale_denom : ℝ)
    (size : map_size) (zoom : Nat) (dpi : ℝ) (geografic_center : point) :
    command :=
  let extent0 := box2d.mk4 0 0 size.width size.height
  let projection_scale_factor := Real.cos (geografic_center.y * D2R)
  let extent1 := extent0.scale_about_center (scale_denom * projection_scale_factor)
  let extent2 := extent1.re_center map_center.x map_center.y
  let scale := scale_merc zoom
  let mapnik_scale_denom := scale_denominator scale false
  { size := size.meters_to_inches.mul points_per_inch
    extent := extent2
    scale_factor := mapnik_scale_denom /
      scale_denominator (extent2.width / size.width) false
    dpi := dpi }

/-- Embeds the alternatives of the variant `mapnik_print::renderer_type` from
`lib/renderer.hpp` (with Cairo and all three Cairo vector surfaces compiled
in, which the header requires via its `#ifndef HAVE_CAIRO` error): the five
backend renderer structs. -/
inductive renderer_kind where
  | agg_renderer
  | cairo_renderer
  | cairo_svg_renderer
  | cairo_ps_renderer
  | cairo_pdf_renderer
deriving DecidableEq

/-- Embeds each renderer struct's `name` constant from `lib/renderer.hpp`. -/
def renderer_kind.name : renderer_kind → String
  | .agg_renderer => "agg"
  | .cairo_renderer => "cairo"
  | .cairo_svg_renderer => "cairo-svg"
  | .cairo_ps_renderer => "cairo-ps"
  | .cairo_pdf_renderer => "cairo-pdf"

/-- Embeds each renderer struct's `ext` constant from `lib/renderer.hpp`
(`.png` inherited from `raster_renderer_base`, `.svg`, `.ps`, `.pdf` on the
Cairo vector renderers). -/
def renderer_kind.ext : renderer_kind → String
  | .agg_renderer => ".png"
  | .cairo_renderer => ".png"
  | .cairo_svg_renderer => ".svg"
  | .cairo_ps_renderer => ".ps"
  | .cairo_pdf_renderer => ".pdf"

/-- Embeds each renderer struct's `support_tiles` constant from
`lib/renderer.hpp` (`true` in `raster_renderer_base`, `false` in
`vector_renderer_base`). -/
def renderer_kind.support_tiles : renderer_kind → Bool
  | .agg_renderer => true
  | .cairo_renderer => true
  | .cairo_svg_renderer => false
  | .cairo_ps_renderer => false
  | .cairo_pdf_renderer => false

/-- The two shapes of `image_type` in `lib/renderer.hpp`: a raster image
(`mapnik::image_rgba8` in `raster_renderer_base`) or a byte string
(`std::string` in `vector_renderer_base`). -/
inductive image_repr where
  | raster
  | byte_string
deriving DecidableEq

/-- Embeds each renderer struct's `image_type` alias from `lib/renderer.hpp`. -/
def renderer_kind.image_type : renderer_kind → image_repr
  | .agg_renderer => .raster
  | .cairo_renderer => .raster
  | .cairo_svg_renderer => .byte_string
  | .cairo_ps_renderer => .byte_string
  | .cairo_pdf_renderer => .byte_string

/-- The five alternatives of the `renderer_type` variant, in declaration
order. -/
def all_renderers : List renderer_kind :=
  [.agg_renderer, .cairo_renderer, .cairo_svg_renderer,
   .cairo_ps_renderer, .cairo_pdf_renderer]

/-- Embeds `vector_renderer_base::save` from `lib/renderer.hpp`.  The file
system is modelled by the boolean `file_opens` (whether the `std::ofstream`
opens); on failure the function throws (`Except.error`) the
`std::runtime_error` message naming the path, otherwise it writes the image
bytes to the path, modelled by returning them. -/
def vector_renderer_base.save (file_opens : Bool) (image : String)
    (path : String) : Except String String :=
  if !file_opens then
    Except.error ("Cannot open file for writing: " ++ path)
  else
    Except.ok image

/-- Models the external type `mapnik::Map` as far as the repository reads it:
`renderer<R>::render` passes it through whole, and the backend `render`
methods read its pixel dimensions. -/
structure mapnik_map where
  width : Nat
  height : Nat

/-- Embeds the state of `class renderer<Renderer>` from `lib/renderer.hpp`:
the stored map and output directory (the backend `ren` is a stateless
constant and is passed as a function below). -/
structure renderer_state where
  map : mapnik_map
  output_dir : String

/-- Embeds `renderer<Renderer>::render(command const & cmd)` from
`lib/renderer.hpp`.  The backend member `ren` is the parameter `ren`,
mirroring the template parameter: the body is exactly
`return ren.render(map, cmd.scale_factor);`, so the result pairs the
backend's image with the (unchanged) state. -/
def renderer.render {Img : Type} (ren : mapnik_map → ℝ → Img)
    (st : renderer_state) (cmd : command) : Img × renderer_state :=
  (ren st.map cmd.scale_factor, st)

/-- Modelled from the spec: the output-file naming scheme
`<style>-<width>-<height>-[<tilesX>x<tilesY>-]<scale>-<renderer><ext>`.
The code that builds output file names (the runner of the original test
framework, `runner.hpp`) is not under `src/` — `src/mapnik_print.cpp` only
references it from commented-out code — so the name builder is modelled from
the spec's naming scheme, the tiles component being present exactly when the
rendering is tiled. -/
def output_filename (style : String) (width height : Nat)
    (tiles : Option (Nat × Nat)) (scale : String)
    (renderer_name renderer_ext : String) : String :=
  match tiles with
  | some (tx, ty) =>
      style ++ "-" ++ toString width ++ "-" ++ toString height ++ "-" ++
        toString tx ++ "x" ++ toString ty ++ "-" ++ scale ++ "-" ++
        renderer_name ++ renderer_ext
  | none =>
      style ++ "-" ++ toString width ++ "-" ++ toString height ++ "-" ++
        scale ++ "-" ++ renderer_name ++ renderer_ext

/-- Embeds the `log_levels` map of `src/mapnik_print.cpp` (compiled under
`MAPNIK_LOG`): the known log level names. -/
def known_log_levels : List String :=
  ["debug", "warn", "error", "none"]

/-- The command line and build environment of `main` in
`src/mapnik_print.cpp`, after `boost::program_options` parsing (parsing
itself is external): the value of each flag, with the program-options
defaults already applied, plus whether `MAPNIK_LOG` was compiled in and
whether output files could be opened for writing.  The `envelope` flag
carries the box parsed by the external `box2d::from_string`. -/
structure main_input where
  help : Bool
  verbose : Bool
  duration : Bool
  iterations : Nat
  output_dir : String
  styles : List String
  fonts : String
  plugins : String
  log_compiled : Bool
  log : String
  scale_factor : List ℝ
  envelope : Option box2d
  size : Option String
  renderers : List String
  output_writable : Bool

/-- The side effects that the statements of `main` in `src/mapnik_print.cpp`
can perform, in the order performed. -/
inductive action where
  | print_usage
  | print_unknown_log_level (level : String)
  | set_log_severity (level : String)
  | register_fonts (path : String) (recurse : Bool)
  | register_datasources (path : String)
  | render_style (style : String)
  | save_output (path : String)
  | print_error (msg : String)
deriving DecidableEq

/-- Whether an action renders a style. -/
def action.is_render_style : action → Bool
  | .render_style _ => true
  | _ => false

/-- Whether an action writes an output file. -/
def action.is_save_output : action → Bool
  | .save_output _ => true
  | _ => false

/-- Whether an action prints an error message. -/
def action.is_print_error : action → Bool
  | .print_error _ => true
  | _ => false

/-- Modelled from the spec: the `config` defaults struct that `main` fills
(`config.hpp` of this repository is not under `src/`; `main` includes it only
via a commented-out line and uses the members `scales`, `envelopes` and, in
commented-out code, `sizes`). -/
structure config where
  scales : List ℝ
  envelopes : List box2d
  sizes : List map_size

/-- The observable outcome of one run of `main`: the exit code, the side
effects performed in order, and the `config defaults` value as of the end of
the executed statements (`none` when `main` returned before constructing
it). -/
structure main_result where
  exit_code : Int
  actions : List action
  defaults : Option config

/-- Embeds the executed statements of `main` from `src/mapnik_print.cpp`.
After option parsing: on `--help`, print usage and return 1; under
`MAPNIK_LOG`, reject an unknown `--log` level with exit 1 and otherwise set
the severity; register fonts (recursively) and datasources from the `--fonts`
and `--plugins` paths; set `defaults.scales` from `--scale-factor` and append
the parsed `--envelope` box to `defaults.envelopes`.  Everything after that —
`--size` parsing into `defaults.sizes`, the runner, the report, the styles
check, the try/catch — is inside a `/* ... */` comment, so control falls off
the end of `main`, which returns 0. -/
def main_run (i : main_input) : main_result :=
  if i.help = true then
    { exit_code := 1, actions := [action.print_usage], defaults := none }
  else if i.log_compiled = true ∧ i.log ∉ known_log_levels then
    { exit_code := 1, actions := [action.print_unknown_log_level i.log],
      defaults := none }
  else
    let log_actions :=
      if i.log_compiled = true then [action.set_log_severity i.log] else []
    let acts := log_actions ++
      [action.register_fonts i.fonts true,
       action.register_datasources i.plugins]
    let defaults : config :=
      { scales := i.scale_factor
        envelopes := match i.envelope with
          | some box => [box]
          | none => []
        sizes := [] }
    { exit_code := 0, actions := acts, defaults := some defaults }

/-! Helper lemmas shared by several proofs. -/

/-- Below 32, the 32-bit shift `1u << z` does not wrap. -/
theorem shl32_of_lt {z : Nat} (hz : z < 32) : shl32 z = 2 ^ z := by
  unfold shl32
  rw [Nat.one_shiftLeft]
  exact Nat.mod_eq_of_lt (Nat.pow_lt_pow_right one_lt_two hz)

/-- Below zoom 32, `scale_merc` computes the mercator resolution
`EARTH_CIRCUMFERENCE / 2 ^ zoom / 256`. -/
theorem scale_merc_eq_of_lt {z : Nat} (hz : z < 32) :
    scale_merc z = EARTH_CIRCUMFERENCE / 2 ^ z / 256 := by
  unfold scale_merc
  rw [shl32_of_lt hz]
  push_cast
  ring

/-! The claim theorems. -/

/-- C10: for every `map_size` `s` and factor `f`, `s * f` scales both
components, `s.meters_to_inches()` divides both components by `0.0254`
meters per inch, and the two operations commute. -/
theorem map_size_algebra (s : map_size) (f : ℝ) :
    (s.mul f).width = s.width * f ∧ (s.mul f).height = s.height * f ∧
    s.meters_to_inches.width = s.width / 0.0254 ∧
    s.meters_to_inches.height = s.height / 0.0254 ∧
    (s.mul f).meters_to_inches = s.meters_to_inches.mul f := by
  refine ⟨rfl, rfl, rfl, rfl, ?_⟩
  ext
  · show s.width * f / 0.0254 = s.width / 0.0254 * f
    ring
  · show s.height * f / 0.0254 = s.height / 0.0254 * f
    ring

/-- C7: the renderer interface offers exactly the five backends AGG raster
("agg", ".png", tiles), Cairo raster ("cairo", ".png", tiles), Cairo SVG
("cairo-svg", ".svg"), Cairo PS ("cairo-ps", ".ps") and Cairo PDF
("cairo-pdf", ".pdf"); the three vector backends do not support tiles and
save their output as a byte string. -/
theorem renderer_backends_enumeration :
    (∀ r : renderer_kind, r ∈ all_renderers) ∧
    all_renderers.length = 5 ∧ all_renderers.Nodup ∧
    (renderer_kind.agg_renderer.name = "agg" ∧
      renderer_kind.agg_renderer.ext = ".png" ∧
      renderer_kind.agg_renderer.support_tiles = true ∧
      renderer_kind.agg_renderer.image_type = image_repr.raster) ∧
    (renderer_kind.cairo_renderer.name = "cairo" ∧
      renderer_kind.cairo_renderer.ext = ".png" ∧
      renderer_kind.cairo_renderer.support_tiles = true ∧
      renderer_kind.cairo_renderer.image_type = image_repr.raster) ∧
    (renderer_kind.cairo_svg_renderer.name = "cairo-svg" ∧
      renderer_kind.cairo_svg_renderer.ext = ".svg" ∧
      renderer_kind.cairo_svg_renderer.support_tiles = false ∧
      renderer_kind.cairo_svg_renderer.image_type = image_repr.byte_string) ∧
    (renderer_kind.cairo_ps_renderer.name = "cairo-ps" ∧
      renderer_kind.cairo_ps_renderer.ext = ".ps" ∧
      renderer_kind.cairo_ps_renderer.support_tiles = false ∧
      renderer_kind.cairo_ps_renderer.image_type = image_repr.byte_string) ∧
    (renderer_kind.cairo_pdf_renderer.name = "cairo-pdf" ∧
      renderer_kind.cairo_pdf_renderer.ext = ".pdf" ∧
      renderer_kind.cairo_pdf_renderer.support_tiles = false ∧
      renderer_kind.cairo_pdf_renderer.image_type = image_repr.byte_string) ∧
    (∀ r : renderer_kind, r.image_type = image_repr.byte_string ↔
      r.support_tiles = false) := by
  refine ⟨fun r => by cases r <;> decide, by decide, by decide, by decide,
    by decide, by decide, by decide, by decide, fun r => by cases r <;> decide⟩

/-- C6: the output file name is
`<style>-<width>-<height>-[<tilesX>x<tilesY>-]<scale>-<renderer><ext>`: the
tiles component appears exactly when the rendering is tiled, and the suffix
is the selected renderer's name and extension. -/
theorem output_filename_scheme :
    (∀ (style : String) (w h : Nat) (scale : String) (r : renderer_kind),
      output_filename style w h none scale r.name r.ext =
        style ++ "-" ++ toString w ++ "-" ++ toString h ++ "-" ++
          scale ++ "-" ++ r.name ++ r.ext) ∧
    (∀ (style : String) (w h tx ty : Nat) (scale : String) (r : renderer_kind),
      output_filename style w h (some (tx, ty)) scale r.name r.ext =
        style ++ "-" ++ toString w ++ "-" ++ toString h ++ "-" ++
          toString tx ++ "x" ++ toString ty ++ "-" ++ scale ++ "-" ++
          r.name ++ r.ext) :=
  ⟨fun _ _ _ _ _ => rfl, fun _ _ _ _ _ _ _ => rfl⟩

/-- C8: `renderer<R>::render(cmd)` passes only `cmd.scale_factor` (with the
stored map) to the backend: commands agreeing on `scale_factor` render
identically whatever their `size`, `extent` and `dpi`, and the stored map and
output directory are unchanged. -/
theorem render_uses_only_scale_factor {Img : Type}
    (ren : mapnik_map → ℝ → Img) (st : renderer_state)
    (cmd1 cmd2 : command) (h : cmd1.scale_factor = cmd2.scale_factor) :
    renderer.render ren st cmd1 = renderer.render ren st cmd2 ∧
    (renderer.render ren st cmd1).2 = st := by
  unfold renderer.render
  rw [h]
  exact ⟨rfl, rfl⟩

/-- Concrete command used by the witness of `render_uses_only_scale_factor`. -/
def cmd_a : command :=
  { size := ⟨1, 2⟩, extent := ⟨0, 0, 1, 1⟩, scale_factor := 2, dpi := 96 }

/-- A second concrete command with the same scale factor but different size,
extent and dpi. -/
def cmd_b : command :=
  { size := ⟨3, 4⟩, extent := ⟨0, 0, 5, 5⟩, scale_factor := 2, dpi := 300 }

/-- Witness for C8 at concrete inputs: `cmd_a` and `cmd_b` differ in size,
extent and dpi but share the scale factor, so they render identically and
leave the state unchanged. -/
theorem render_uses_only_scale_factor_witness :
    cmd_a.scale_factor = cmd_b.scale_factor ∧
    (renderer.render (fun _ sf => sf) ⟨⟨256, 256⟩, "out"⟩ cmd_a =
        renderer.render (fun _ sf => sf) ⟨⟨256, 256⟩, "out"⟩ cmd_b ∧
      (renderer.render (fun _ sf => sf) ⟨⟨256, 256⟩, "out"⟩ cmd_a).2 =
        ⟨⟨256, 256⟩, "out"⟩) :=
  ⟨rfl, render_uses_only_scale_factor (fun _ sf => sf) ⟨⟨256, 256⟩, "out"⟩
    cmd_a cmd_b rfl⟩

/-- C9: for zoom below 32, `scale_merc` equals
`EARTH_CIRCUMFERENCE / 2 ^ zoom / 256` and halves at each following zoom
level; at 32 and beyond the 32-bit shift `1u << zoom` wraps and is no longer
`2 ^ zoom`. -/
theorem scale_merc_spec :
    (∀ z : Nat, z < 32 → scale_merc z = EARTH_CIRCUMFERENCE / 2 ^ z / 256) ∧
    (∀ z : Nat, z + 1 < 32 → scale_merc (z + 1) = scale_merc z / 2) ∧
    (∀ z : Nat, 32 ≤ z → shl32 z ≠ 2 ^ z) := by
  refine ⟨fun z hz => scale_merc_eq_of_lt hz, fun z hz => ?_, fun z hz => ?_⟩
  · rw [scale_merc_eq_of_lt hz, scale_merc_eq_of_lt (Nat.lt_of_succ_lt hz),
      pow_succ]
    have h2 : (2:ℝ) ^ z ≠ 0 := pow_ne_zero _ two_ne_zero
    field_simp
    ring_nf
    tauto
  · unfold shl32
    rw [Nat.one_shiftLeft]
    intro heq
    have hlt : 2 ^ z % 2 ^ 32 < 2 ^ 32 := Nat.mod_lt _ (by norm_num)
    have hle : (2:Nat) ^ 32 ≤ 2 ^ z := Nat.pow_le_pow_right (by norm_num) hz
    omega

/-- Witness for C9 at concrete zoom levels 0, 1 and 32. -/
theorem scale_merc_spec_witness :
    scale_merc 0 = EARTH_CIRCUMFERENCE / 2 ^ (0:Nat) / 256 ∧
    scale_merc 1 = scale_merc 0 / 2 ∧
    shl32 32 ≠ 2 ^ 32 :=
  ⟨scale_merc_spec.1 0 (by norm_num),
   scale_merc_spec.2.1 0 (by norm_num),
   scale_merc_spec.2.2 32 (by norm_num)⟩

/-- C1: the extent stored by the `command` constructor equals the box
`(0, 0, s.width, s.height)` multiplied (mapnik `box2d::operator*=`, scaling
about the center) by `scale_denom` times `cos(latitude of the geographic
center)` and then re-centered at the map center; for nonnegative sizes that
is the box of width `s.width * factor` and height `s.height * factor`
centered at the map center. -/
theorem command_extent_spec (c : point) (d : ℝ) (s : map_size) (z : Nat)
    (dpi : ℝ) (g : point) :
    (command.make c d s z dpi g).extent =
      ((box2d.mk4 0 0 s.width s.height).scale_about_center
        (d * Real.cos (g.y * D2R))).re_center c.x c.y ∧
    (0 ≤ s.width → 0 ≤ s.height →
      (command.make c d s z dpi g).extent =
        { minx := c.x - s.width * (d * Real.cos (g.y * D2R)) / 2,
          miny := c.y - s.height * (d * Real.cos (g.y * D2R)) / 2,
          maxx := c.x + s.width * (d * Real.cos (g.y * D2R)) / 2,
          maxy := c.y + s.height * (d * Real.cos (g.y * D2R)) / 2 }) := by
  have h1 : (command.make c d s z dpi g).extent =
      ((box2d.mk4 0 0 s.width s.height).scale_about_center
        (d * Real.cos (g.y * D2R))).re_center c.x c.y := rfl
  refine ⟨h1, fun hw hh => ?_⟩
  rw [h1]
  simp only [box2d.mk4, box2d.scale_about_center, box2d.re_center,
    box2d.center, box2d.width, box2d.height, min_eq_left hw, max_eq_right hw,
    min_eq_left hh, max_eq_right hh, box2d.mk.injEq]
  refine ⟨by ring, by ring, by ring, by ring⟩

/-- Witness for C1 at a concrete input: center `(10, 20)`, scale denominator
`2`, size `3 x 4` meters, geographic center `(0, 0)`. -/
theorem command_extent_spec_witness :
    (command.make ⟨10, 20⟩ 2 ⟨3, 4⟩ 0 96 ⟨0, 0⟩).extent =
      ((box2d.mk4 0 0 (3:ℝ) 4).scale_about_center
        (2 * Real.cos (0 * D2R))).re_center 10 20 ∧
    (command.make ⟨10, 20⟩ 2 ⟨3, 4⟩ 0 96 ⟨0, 0⟩).extent =
      { minx := 10 - 3 * (2 * Real.cos (0 * D2R)) / 2,
        miny := 20 - 4 * (2 * Real.cos (0 * D2R)) / 2,
        maxx := 10 + 3 * (2 * Real.cos (0 * D2R)) / 2,
        maxy := 20 + 4 * (2 * Real.cos (0 * D2R)) / 2 } :=
  ⟨(command_extent_spec ⟨10, 20⟩ 2 ⟨3, 4⟩ 0 96 ⟨0, 0⟩).1,
   (command_extent_spec ⟨10, 20⟩ 2 ⟨3, 4⟩ 0 96 ⟨0, 0⟩).2
     (by norm_num) (by norm_num)⟩

/-- C2: the scale factor stored by the `command` constructor is the mapnik
scale denominator of `scale_merc(zoom)` — which below zoom 32 is
`EARTH_CIRCUMFERENCE / 2 ^ zoom / 256` — divided by the mapnik scale
denominator of `extent.width() / size.width`, the parameter `size` being the
physical size in meters. -/
theorem command_scale_factor_spec (c : point) (d : ℝ) (s : map_size)
    (z : Nat) (dpi : ℝ) (g : point) (hz : z < 32) :
    (command.make c d s z dpi g).scale_factor =
      scale_denominator (EARTH_CIRCUMFERENCE / 2 ^ z / 256) false /
        scale_denominator
          ((command.make c d s z dpi g).extent.width / s.width) false := by
  have h1 : (command.make c d s z dpi g).scale_factor =
      scale_denominator (scale_merc z) false /
        scale_denominator
          ((command.make c d s z dpi g).extent.width / s.width) false := rfl
  rw [h1, scale_merc_eq_of_lt hz]

/-- Witness for C2 at a concrete input: zoom level 10 (below 32), size
`2 x 1` meters. -/
theorem command_scale_factor_spec_witness :
    (10:Nat) < 32 ∧
    (command.make ⟨0, 0⟩ 1 ⟨2, 1⟩ 10 300 ⟨0, 0⟩).scale_factor =
      scale_denominator (EARTH_CIRCUMFERENCE / 2 ^ (10:Nat) / 256) false /
        scale_denominator
          ((command.make ⟨0, 0⟩ 1 ⟨2, 1⟩ 10 300 ⟨0, 0⟩).extent.width / 2)
          false :=
  ⟨by norm_num,
   command_scale_factor_spec ⟨0, 0⟩ 1 ⟨2, 1⟩ 10 300 ⟨0, 0⟩ (by norm_num)⟩

/-- C4: for every invocation of `main` that does not pass `--help` (and,
with logging compiled in, names a known log level), the program registers
fonts and datasources and returns 0 without rendering any style and without
writing any output file: the runner/report pipeline is commented out. -/
theorem main_no_render_pipeline (i : main_input) (h1 : i.help = false)
    (h2 : i.log_compiled = true → i.log ∈ known_log_levels) :
    (main_run i).exit_code = 0 ∧
    action.register_fonts i.fonts true ∈ (main_run i).actions ∧
    action.register_datasources i.plugins ∈ (main_run i).actions ∧
    (main_run i).actions.all
      (fun a => !a.is_render_style && !a.is_save_output) = true := by
  have hcond : ¬ (i.log_compiled = true ∧ i.log ∉ known_log_levels) := by
    rintro ⟨hc, hn⟩
    exact hn (h2 hc)
  by_cases hlc : i.log_compiled = true
  · have hmem := h2 hlc
    simp [main_run, h1, hcond, hlc, hmem, action.is_render_style,
      action.is_save_output]
  · simp [main_run, h1, hcond, hlc, action.is_render_style,
      action.is_save_output]

/-- Concrete command line for the witness of C4: no flags beyond the
program-options defaults, logging not compiled in. -/
def c4_input : main_input :=
  { help := false, verbose := false, duration := false, iterations := 1,
    output_dir := "./", styles := [], fonts := "fonts",
    plugins := "plugins/input", log_compiled := false, log := "error",
    scale_factor := [1], envelope := none, size := none, renderers := [],
    output_writable := true }

/-- Witness for C4 at the concrete input `c4_input`. -/
theorem main_no_render_pipeline_witness :
    (main_run c4_input).exit_code = 0 ∧
    action.register_fonts "fonts" true ∈ (main_run c4_input).actions ∧
    action.register_datasources "plugins/input" ∈ (main_run c4_input).actions ∧
    (main_run c4_input).actions.all
      (fun a => !a.is_render_style && !a.is_save_output) = true :=
  main_no_render_pipeline c4_input rfl (by decide)

/-- Concrete command line on which a vector rendering's save would fail:
the Cairo SVG renderer is selected, a style is given and no output file can
be opened for writing. -/
def c3_input : main_input :=
  { help := false, verbose := false, duration := false, iterations := 1,
    output_dir := "/nonexistent", styles := ["style"], fonts := "fonts",
    plugins := "plugins/input", log_compiled := false, log := "error",
    scale_factor := [1], envelope := none, size := none,
    renderers := ["cairo-svg"], output_writable := false }

/-- Counterexample to C3: on a run where a vector save would fail (vector
renderer selected, style given, output not writable), `main` neither prints
an error nor exits non-zero — it performs no save at all and returns 0,
because the runner invocation and the try/catch of `main` are commented
out. -/
theorem save_error_propagation_cex :
    c3_input.renderers = ["cairo-svg"] ∧
    c3_input.styles = ["style"] ∧
    c3_input.output_writable = false ∧
    (main_run c3_input).exit_code = 0 ∧
    (main_run c3_input).actions.all (fun a => !a.is_print_error) = true ∧
    (main_run c3_input).actions.all (fun a => !a.is_save_output) = true := by
  refine ⟨rfl, rfl, rfl, rfl, ?_, ?_⟩ <;> decide

/-- C3 as amended: `vector_renderer_base::save` does throw a
`std::runtime_error` naming the path whenever the output file cannot be
opened, but no such exception ever propagates to the top-level CLI: the
executed statements of `main` never perform a save (the runner pipeline and
the catch-print-exit block are commented out). -/
theorem save_error_amended :
    (∀ image path, vector_renderer_base.save false image path =
      Except.error ("Cannot open file for writing: " ++ path)) ∧
    (∀ i : main_input,
      (main_run i).actions.all (fun a => !a.is_save_output) = true) := by
  refine ⟨fun image path => rfl, fun i => ?_⟩
  unfold main_run
  split
  · rfl
  · split
    · rfl
    · by_cases h3 : i.log_compiled = true <;>
        by_cases hm : i.log ∈ known_log_levels <;>
          simp [h3, hm, action.is_save_output]

/-- Concrete command line passing `--size`, for the C5 counterexample. -/
def c5_input : main_input :=
  { help := false, verbose := false, duration := false, iterations := 1,
    output_dir := "./", styles := ["style"], fonts := "fonts",
    plugins := "plugins/input", log_compiled := false, log := "error",
    scale_factor := [1], envelope := none, size := some "800,600",
    renderers := [], output_writable := true }

/-- Counterexample to C5: with `--size 800,600` on the command line, the
parsed value is never forwarded into the defaults — `defaults.sizes` stays
empty, because the block parsing `--size` into `defaults.sizes` is commented
out. -/
theorem size_flag_not_forwarded_cex :
    c5_input.size = some "800,600" ∧
    (main_run c5_input).defaults.map config.sizes = some [] ∧
    ¬ ∃ cfg, (main_run c5_input).defaults = some cfg ∧ cfg.sizes ≠ [] := by
  refine ⟨rfl, rfl, ?_⟩
  rintro ⟨cfg, hc, hne⟩
  have hd : (main_run c5_input).defaults = some ⟨[1], [], []⟩ := rfl
  rw [hd] at hc
  injection hc with h
  subst h
  exact hne rfl

/-- C5 as amended: `main` forwards the `--fonts` path to font registration,
the `--plugins` path to the datasource cache, the `--scale-factor` values and
the parsed `--envelope` box into the defaults; `--size`, the styles, the
renderer selections and `--output-dir` are parsed but never forwarded, their
consumers being commented out, so `defaults.sizes` stays empty. -/
theorem main_flag_forwarding_amended (i : main_input) (h1 : i.help = false)
    (h2 : i.log_compiled = true → i.log ∈ known_log_levels) :
    action.register_fonts i.fonts true ∈ (main_run i).actions ∧
    action.register_datasources i.plugins ∈ (main_run i).actions ∧
    (main_run i).defaults =
      some { scales := i.scale_factor, envelopes := i.envelope.toList,
             sizes := [] } := by
  have hcond : ¬ (i.log_compiled = true ∧ i.log ∉ known_log_levels) := by
    rintro ⟨hc, hn⟩
    exact hn (h2 hc)
  by_cases hlc : i.log_compiled = true
  · have hmem := h2 hlc
    cases he : i.envelope <;>
      simp [main_run, h1, hcond, hlc, hmem, he, Option.toList]
  · cases he : i.envelope <;>
      simp [main_run, h1, hcond, hlc, he, Option.toList]

/-- Witness for the amended C5 at the concrete input `c5_input`. -/
theorem main_flag_forwarding_amended_witness :
    action.register_fonts "fonts" true ∈ (main_run c5_input).actions ∧
    action.register_datasources "plugins/input" ∈ (main_run c5_input).actions ∧
    (main_run c5_input).defaults =
      some { scales := [1], envelopes := [], sizes := [] } :=
  main_flag_forwarding_amended c5_input rfl (by decide)

end mapnik_print
